import Mathlib

/-!
Verification development for the video face-recognition pipeline
(`src/video_recognition/video_processor.py` together with
`src/database/vector_database.py` and `src/utils/chinese_text_renderer.py`).

Similarities, thresholds and frame rates are modelled as rationals (the Python
code compares `float` values with exact `>=` / `==` / `<=`, and every constant
that appears in the claims is exactly representable); names and titles are
modelled as strings; dictionaries with insertion-order iteration are modelled
as association lists in insertion order.
-/

set_option allowUnsafeReducibility true

attribute [semireducible] Rat.mul Rat.add Rat.sub Rat.inv Rat.ofScientific

namespace ActorDS

/-! ## Smart frame skip (video_processor.py, `_calculate_smart_skip`, lines 157-172)

`smart_skip_enabled` is set to `long_video_mode` in `__init__` (line 46).
The duration in minutes is `total_frames / fps / 60` (line 163). -/

def calculateSmartSkip (smartSkipEnabled : Bool) (fps : ℚ) (totalFrames : ℕ) : ℕ :=
  if smartSkipEnabled = false then 1
  else
    let durationMinutes : ℚ := (totalFrames : ℚ) / fps / 60
    if durationMinutes ≤ 30 then 1
    else if durationMinutes ≤ 90 then 2
    else if durationMinutes ≤ 180 then 3
    else 5

/-- process_video_file line 612-613: `smart_skip = self._calculate_smart_skip(fps, total_frames, 0)`;
`effective_skip = max(frame_skip, smart_skip)`. -/
def effectiveSkip (longVideoMode : Bool) (frameSkip : ℕ) (fps : ℚ) (totalFrames : ℕ) : ℕ :=
  max frameSkip (calculateSmartSkip longVideoMode fps totalFrames)

/-! ## Checkpoints (video_processor.py, `_load_checkpoint` lines 198-222,
`_save_checkpoint` lines 174-196, resume logic lines 587-646) -/

structure Checkpoint where
  movie_title : Option String
  similarity_threshold : ℚ
  current_frame : ℕ
  deriving DecidableEq, Repr

/-- `_load_checkpoint`: `stored` is the parsed content of the checkpoint file for this
video (`none` when the file does not exist or fails to parse, lines 204-205 and
220-222).  The checkpoint is returned only when its stored `movie_title` and
`similarity_threshold` both equal the recognizer's current configuration
(lines 212-218); otherwise `none`. -/
def loadCheckpoint (stored : Option Checkpoint) (movie : Option String) (threshold : ℚ) :
    Option Checkpoint :=
  match stored with
  | none => none
  | some c =>
      if c.movie_title = movie ∧ c.similarity_threshold = threshold then some c else none

/-- process_video_file lines 587-646: `checkpoint_data = self._load_checkpoint(...)` only when
`resume_from_checkpoint`; `start_frame = checkpoint_data['current_frame']` on a hit and
`start_frame = 0` otherwise (lines 624-640). -/
def resumeStartFrame (resume : Bool) (stored : Option Checkpoint) (movie : Option String)
    (threshold : ℚ) : ℕ :=
  match (if resume then loadCheckpoint stored movie threshold else none) with
  | some c => c.current_frame
  | none => 0

/-! ## Similarity search and movie-scoped resolution
(vector_database.py lines 538-561, video_processor.py lines 224-401)

A query embedding is modelled by the ranked candidate list `raw` that the underlying
index (`self.database.search_similar`) produces for it, ordered as the index returns
it (descending similarity per the collaborator contract); `search_similar` with
argument `top_k` returns its first `top_k` entries. -/

structure Metadata where
  actor_name : String
  movie_title : String
  deriving DecidableEq, Repr

structure SearchResult where
  similarity : ℚ
  metadata : Metadata
  deriving DecidableEq, Repr

/-- `VectorDatabaseManager.search_similar_faces` (vector_database.py lines 538-561):
query the underlying index for `top_k` results, then keep those with
`similarity >= min_similarity`. -/
def search_similar_faces (raw : List SearchResult) (top_k : ℕ) (min_similarity : ℚ) :
    List SearchResult :=
  (raw.take top_k).filter (fun r => decide (min_similarity ≤ r.similarity))

/-- Python `str.lower()` on one character, for the ASCII range (the movie titles
compared by the code; the function is the identity on CJK characters either way). -/
def pyLowerChar (c : Char) : Char :=
  if 65 ≤ c.toNat ∧ c.toNat ≤ 90 then Char.ofNat (c.toNat + 32) else c

def pyLower (s : String) : String := ⟨s.data.map pyLowerChar⟩

/-- Python string `<`: lexicographic comparison of code points. -/
def charListLtB : List Char → List Char → Bool
  | [], [] => false
  | [], _ :: _ => true
  | _ :: _, [] => false
  | a :: as, b :: bs =>
      if a.toNat < b.toNat then true
      else if b.toNat < a.toNat then false
      else charListLtB as bs

def pyStrLeB (s t : String) : Bool := !(charListLtB t.data s.data)

/-- Recognizer configuration (video_processor.py `__init__`, lines 28-80):
`hasRoster` models `self.movie_actors` being non-empty (the roster built by
`_get_movie_actors`). -/
structure RecognizerCfg where
  similarity_threshold : ℚ
  movie_title : Option String
  hasRoster : Bool

/-- Python truthiness of `self.movie_title` (line 240: `if not self.movie_title`). -/
def movieTruthy : Option String → Bool
  | none => false
  | some s => !(s == "")

/-- `_is_main_actor` (video_processor.py lines 224-236): membership in the hardcoded
main-actor list. -/
def mainActors : List String :=
  ["摩根·弗里曼", "蒂姆·罗宾斯", "小罗伯特·唐尼", "格温妮斯·帕特洛", "杰夫·布里吉斯"]

def isMainActor (name : String) : Bool := mainActors.contains name

/-- Sort key semantics of line 271:
`results.sort(key=lambda x: (-x['similarity'], x['metadata'].get('actor_name', '')))`.
`x` precedes `y` iff `x`'s similarity is greater, or equal with an actor name that is
not greater (Python tuple comparison). -/
def resultLeB (x y : SearchResult) : Bool :=
  if y.similarity < x.similarity then true
  else if x.similarity = y.similarity then
    pyStrLeB x.metadata.actor_name y.metadata.actor_name
  else false

def orderedInsertRes (x : SearchResult) : List SearchResult → List SearchResult
  | [] => [x]
  | y :: ys => if resultLeB x y then x :: y :: ys else y :: orderedInsertRes x ys

/-- Stable sort by the key of line 271 (Python's `list.sort` is stable; insertion
sort with a reflexive total `≤` places earlier-listed elements first among equals). -/
def sortResults : List SearchResult → List SearchResult
  | [] => []
  | x :: xs => orderedInsertRes x (sortResults xs)

/-- Per-actor accumulator of the tie-break block (video_processor.py lines 281-295). -/
structure GroupInfo where
  face_count : ℕ
  similarity_sum : ℚ
  is_main_actor : Bool
  results : List SearchResult
  deriving DecidableEq, Repr

/-- One step of building `actor_scores` (lines 283-295): a Python dict iterated in
insertion order, modelled as an association list. -/
def updateAssoc (scores : List (String × GroupInfo)) (name : String) (r : SearchResult) :
    List (String × GroupInfo) :=
  match scores with
  | [] => [(name, ⟨1, r.similarity, isMainActor name, [r]⟩)]
  | (n, g) :: rest =>
      if n = name then
        (n, ⟨g.face_count + 1, g.similarity_sum + r.similarity, g.is_main_actor,
          g.results ++ [r]⟩) :: rest
      else (n, g) :: updateAssoc rest name r

def buildActorScores (same : List SearchResult) : List (String × GroupInfo) :=
  same.foldl (fun sc r => updateAssoc sc r.metadata.actor_name r) []

/-- Aggregate score of one actor group (lines 301-307):
`10 if main actor` + `min(face_count, 5)` + `avg_similarity * 10`. -/
def groupScore (g : GroupInfo) : ℚ :=
  (if g.is_main_actor then 10 else 0) + min (g.face_count : ℚ) 5 +
    g.similarity_sum / (g.face_count : ℚ) * 10

/-- The `best_actor` selection loop (lines 298-311): start from `best_score = -1`
and keep the first actor whose score strictly exceeds the current best. -/
def bestActorFold : List (String × GroupInfo) → Option String × ℚ → Option String × ℚ
  | [], acc => acc
  | (n, g) :: rest, acc =>
      if acc.2 < groupScore g then bestActorFold rest (some n, groupScore g)
      else bestActorFold rest acc

def findGroup : List (String × GroupInfo) → String → Option GroupInfo
  | [], _ => none
  | (n, g) :: rest, a => if n = a then some g else findGroup rest a

/-- The `if len(results) > 1:` block of `_search_in_movie_scope`
(video_processor.py lines 269-317): sort by `(-similarity, actor_name)`; gather the
candidates within 0.001 of the best similarity; if more than one, group by actor,
score the groups, and replace the result list by the best actor's first result.
The `findGroup … = none` fallback is unreachable (the selected name comes from the
score table) and is given the Python-equivalent harmless value. -/
def tieBreakSelect (results : List SearchResult) : List SearchResult :=
  let sorted := sortResults results
  match sorted with
  | [] => []
  | top :: _ =>
      let same := sorted.filter (fun r => decide (|r.similarity - top.similarity| < 1/1000))
      if 1 < same.length then
        let scores := buildActorScores same
        match (bestActorFold scores (none, -1)).1 with
        | some a =>
            match findGroup scores a with
            | some info => info.results.take 1
            | none => sorted
        | none => sorted
      else sorted

/-- `_search_in_movie_scope` (video_processor.py lines 238-323): with no truthy movie
title or an empty roster, a direct top-1 search at the configured threshold
(lines 240-246); otherwise a generous top-50 search at floor 0.3, filtered to the
target movie (case-insensitive) re-checked against the real threshold
(lines 250-266), the tie-break block when more than one candidate remains, and at
most one result returned (`results[:1]`, line 319). -/
def searchInMovieScope (cfg : RecognizerCfg) (raw : List SearchResult) :
    List SearchResult :=
  if movieTruthy cfg.movie_title = false ∨ cfg.hasRoster = false then
    search_similar_faces raw 1 cfg.similarity_threshold
  else
    let allResults := search_similar_faces raw 50 (3/10)
    let results := allResults.filter (fun r =>
      (pyLower r.metadata.movie_title == pyLower (cfg.movie_title.getD "")) &&
        decide (cfg.similarity_threshold ≤ r.similarity))
    (if 1 < results.length then tieBreakSelect results else results).take 1

/-- `_get_confidence_level` (video_processor.py lines 394-401). -/
def getConfidenceLevel (s : ℚ) : String :=
  if 85/100 ≤ s then "high" else if 7/10 ≤ s then "medium" else "low"

/-- Per-face outcome of `recognize_faces_in_frame` (video_processor.py lines 344-382). -/
structure RecognitionResult where
  recognized : Bool
  actor_name : Option String
  similarity : ℚ
  confidence : String
  deriving DecidableEq, Repr

/-- Resolution of one detected face (video_processor.py lines 350-380): the default
record has `recognized=False, similarity=0.0, confidence='low'`; if
`_search_in_movie_scope` returned a match, the record is updated from the best one. -/
def recognizeFace (cfg : RecognizerCfg) (raw : List SearchResult) : RecognitionResult :=
  match searchInMovieScope cfg raw with
  | [] => ⟨false, none, 0, "low"⟩
  | best :: _ =>
      ⟨true, some best.metadata.actor_name, best.similarity,
        getConfidenceLevel best.similarity⟩

/-- The candidate set the search actually examines for one face: top-1 of the index
ranking when unscoped; the top-50 candidates above the 0.3 floor whose metadata movie
title matches the target (case-insensitively) when movie-scoped.  This is
`searchInMovieScope` before the similarity-threshold check. -/
def scopePool (cfg : RecognizerCfg) (raw : List SearchResult) : List SearchResult :=
  if movieTruthy cfg.movie_title = false ∨ cfg.hasRoster = false then
    raw.take 1
  else
    ((raw.take 50).filter (fun r => decide ((3:ℚ)/10 ≤ r.similarity))).filter
      (fun r => pyLower r.metadata.movie_title == pyLower (cfg.movie_title.getD ""))

/-! ## Exit paths of `process_video_file` (video_processor.py lines 567-775)

The processing loop is `while not self.should_stop:` with `if not ret: break`
(lines 651-654).  A stop request (`stop_processing`, lines 839-842) therefore makes
the loop exit normally, and control continues at line 746 exactly as for natural
completion; only an exception jumps to the `except` handler (lines 771-773), which
returns `{'error': ...}` and skips both stats finalization (lines 756-758) and
checkpoint deletion (lines 760-766). -/

inductive ExitCause where
  | completed
  | stopped
  | errored
  deriving DecidableEq, Repr

inductive SeqEvent where
  | releaseResources
  | finalizeStats
  | deleteCheckpoint
  | returnStats
  | returnError
  deriving DecidableEq, Repr

/-- Events executed after the processing loop of `process_video_file` for each exit
cause.  `cpExists` models `self.checkpoint_file and self.checkpoint_file.exists()`
(line 761): a checkpoint was saved during this run and its file still exists. -/
def seqExitEvents (cause : ExitCause) (cpExists : Bool) : List SeqEvent :=
  match cause with
  | .errored => [SeqEvent.returnError]
  | _ =>
      [SeqEvent.releaseResources, SeqEvent.finalizeStats] ++
        (if cpExists then [SeqEvent.deleteCheckpoint] else []) ++ [SeqEvent.returnStats]

/-! ## Checkpoint writes across a run (video_processor.py lines 174-196, 737-744, 760-766)

`_save_checkpoint` is reached only under `if self.long_video_mode:` (line 743), and it is
the only place that assigns `self.checkpoint_file` (lines 176-180); the construction
(`__init__`, line 54) leaves `self.checkpoint_file = None`.  The deletion at exit
(line 761) is guarded by `self.checkpoint_file`, so it can only fire if a save happened
during the same run. -/

/-- Effect of one `process_video_file` run on the stored checkpoint for this video.
`saveTicks` are the loop iterations at which the 30-second condition (line 738) held,
`mkCp` gives the checkpoint content saved at such an iteration, and `cause` is how the
run ended. -/
def runCheckpointStorage (longVideoMode : Bool) (saveTicks : List ℕ) (mkCp : ℕ → Checkpoint)
    (storage : Option Checkpoint) (cause : ExitCause) : Option Checkpoint :=
  let st : Option Checkpoint × Bool :=
    saveTicks.foldl (fun st k => if longVideoMode then (some (mkCp k), true) else st)
      (storage, false)
  match cause with
  | .errored => st.1
  | _ => if st.2 then none else st.1

/-! ## Parallel pipeline (video_processor.py, `process_video_with_parallel_frames`,
lines 855-1061) -/

/-- Per-frame dispatch of the producer loop (lines 949-967) for frame number `k`:
a frame with `k % skip ≠ 0` is written straight to the output (lines 957-960); otherwise
the producer tries `frame_queue.put(..., timeout=2.0)` — on `queue.Full` it logs
"帧队列已满，跳过当前帧" and `continue`s (lines 962-967), so the frame is neither queued
nor written.  Returns (frames written to the output video now, frames queued for
recognition). -/
def parallelFrameDispatch (k skip : ℕ) (queueFull : Bool) : List ℕ × List ℕ :=
  if k % skip ≠ 0 then ([k], [])
  else if queueFull then ([], [])
  else ([], [k])

def orderedInsertNat (x : ℕ) : List ℕ → List ℕ
  | [] => [x]
  | y :: ys => if x ≤ y then x :: y :: ys else y :: orderedInsertNat x ys

def sortNat : List ℕ → List ℕ
  | [] => []
  | x :: xs => orderedInsertNat x (sortNat xs)

/-- Order in which `process_video_with_parallel_frames` writes frames to the output
video, for a `totalFrames`-frame input with smart skip `skip`, under the worker
schedule in which no recognition result is ready before the shutdown join
(`frame_queue.join()`, line 1029).  Under this schedule the in-loop drain
(lines 970-992) finds `result_queue` empty each time, so: frames with
`k % skip ≠ 0` are written immediately at read time (lines 957-960), and every
queued frame is written by the final flush in sorted index order
(lines 1032-1043, `for i in sorted(processed_results.keys())`). -/
def parallelWriteOrderSlow (totalFrames skip : ℕ) : List ℕ :=
  let st := (List.range' 1 totalFrames).foldl
    (fun (st : List ℕ × List ℕ) k =>
      if k % skip ≠ 0 then (st.1 ++ [k], st.2) else (st.1, st.2 ++ [k]))
    ([], [])
  st.1 ++ sortNat st.2

/-! ## Frame annotation (video_processor.py `draw_face_annotations` lines 403-483,
`_draw_face_shape` lines 485-536; chinese_text_renderer.py `draw_text_with_outline`
lines 179-228)

Pixel buffers are modelled by identifiers into a heap of frame values; a frame value
is the history of drawing operations applied to the recognizer's input frame, which is
what the annotation claims depend on.  `cv2` drawing primitives write in place into
the buffer they are given; the text renderer converts its input to a fresh PIL buffer,
draws on that, and returns the fresh buffer as a new array (lines 199-223), never
writing the input. -/

inductive FrameTerm where
  | source (tag : ℕ)
  | shapeDrawn (f : FrameTerm) (x1 y1 x2 y2 : ℤ) (shape : String)
      (color : ℕ × ℕ × ℕ) (thickness : ℕ)
  | textDrawn (f : FrameTerm) (x y : ℤ) (label : String) (sim : ℚ) (fontSize : ℕ)
      (textColor outlineColor : ℕ × ℕ × ℕ) (outlineWidth : ℕ)
  deriving DecidableEq, Repr

def Heap : Type := ℕ → FrameTerm

def hset (h : Heap) (j : ℕ) (v : FrameTerm) : Heap := fun i => if i = j then v else h i

/-- A recognition result as consumed by `draw_face_annotations` (fields read at
lines 417-480).  The label abstracts Python's `f"{name} ({similarity:.2f})"` as the
pair (display name, similarity) recorded in the drawn-text value. -/
structure FaceResult where
  recognized : Bool
  actor_name : String
  character : String
  similarity : ℚ
  confidence : String
  color_bgr : Option (ℕ × ℕ × ℕ)
  shape_type : String
  line_thickness : ℕ
  x1 : ℤ
  y1 : ℤ
  x2 : ℤ
  y2 : ℤ
  deriving DecidableEq, Repr

/-- Confidence fallback colors (lines 433-440, BGR). -/
def tierColor (confidence : String) : ℕ × ℕ × ℕ :=
  if confidence = "high" then (0, 255, 0)
  else if confidence = "medium" then (0, 165, 255)
  else (0, 255, 255)

/-- `draw_text_with_outline`: reads buffer `imgId`, allocates the fresh buffer
`nextId` holding the text-drawn image, and returns it; the input buffer is never
written.  Returns (heap, id of the returned buffer, next free id). -/
def drawTextWithOutlineH (h : Heap) (imgId nextId : ℕ) (x y : ℤ) (label : String)
    (sim : ℚ) (fontSize : ℕ) (tc oc : ℕ × ℕ × ℕ) (ow : ℕ) : Heap × ℕ × ℕ :=
  (hset h nextId (FrameTerm.textDrawn (h imgId) x y label sim fontSize tc oc ow),
    nextId, nextId + 1)

/-- `_draw_face_shape` (lines 485-536) and the gray `cv2.rectangle` of the
unrecognized branch (line 469): every shape branch draws in place into the buffer it
is given. -/
def drawFaceShapeH (h : Heap) (fId : ℕ) (x1 y1 x2 y2 : ℤ) (color : ℕ × ℕ × ℕ)
    (shape : String) (thickness : ℕ) : Heap :=
  hset h fId (FrameTerm.shapeDrawn (h fId) x1 y1 x2 y2 shape color thickness)

/-- Annotation of one result (the loop body, lines 417-481): a recognized face gets
the style color from its metadata (`color_bgr`) or the confidence fallback, its shape,
and an outlined label at `(x1+5, y1-5)` preferring the character name over the actor
name; an unrecognized face gets a gray rectangle and the fixed "未知" label.  The
annotated buffer is rebound to the renderer's returned buffer (lines 457 and 473). -/
def annotateOne (st : Heap × ℕ × ℕ) (r : FaceResult) : Heap × ℕ × ℕ :=
  let h := st.1
  let aId := st.2.1
  let nxt := st.2.2
  if r.recognized then
    let color := match r.color_bgr with
      | some c => c
      | none => tierColor r.confidence
    let h2 := drawFaceShapeH h aId r.x1 r.y1 r.x2 r.y2 color r.shape_type r.line_thickness
    let displayName := if r.character ≠ "" then r.character else r.actor_name
    drawTextWithOutlineH h2 aId nxt (r.x1 + 5) (r.y1 - 5) displayName r.similarity 18
      color (0, 0, 0) 2
  else
    let h2 := drawFaceShapeH h aId r.x1 r.y1 r.x2 r.y2 (128, 128, 128) "rectangle" 2
    drawTextWithOutlineH h2 aId nxt (r.x1 + 5) (r.y1 - 5) "未知" 0 18
      (255, 255, 255) (0, 0, 0) 2

/-- `draw_face_annotations` (lines 403-483): `annotated_frame = frame.copy()`
(line 415) allocates a fresh buffer initialized with the source frame's content; the
per-result loop then only ever draws into the copy or a renderer-returned successor.
Returns (final heap, id of the returned annotated buffer, next free id). -/
def drawFaceAnnotM (h : Heap) (frameId nextId : ℕ) (results : List FaceResult) :
    Heap × ℕ × ℕ :=
  results.foldl annotateOne (hset h nextId (h frameId), nextId, nextId + 1)

/-- Content of the annotated frame returned by `draw_face_annotations`. -/
def annotOutput (h : Heap) (frameId nextId : ℕ) (results : List FaceResult) : FrameTerm :=
  (drawFaceAnnotM h frameId nextId results).1
    ((drawFaceAnnotM h frameId nextId results).2.1)

/-- A sample recognition result for witnesses. -/
def sampleFace : FaceResult :=
  ⟨true, "A", "角色", 9/10, "high", none, "circle", 2, 10, 20, 110, 120⟩

/-- Candidate list for the tie-break scenario of claim C3: actor "摩根·弗里曼" (in the
main-actor list) with three reference faces at similarity 0.8001 and an unlisted actor
"路人Q" with one face at similarity 0.8000, all belonging to target movie "M". -/
def tieExampleRaw : List SearchResult :=
  [⟨8001/10000, ⟨"摩根·弗里曼", "M"⟩⟩, ⟨8001/10000, ⟨"摩根·弗里曼", "M"⟩⟩,
   ⟨8001/10000, ⟨"摩根·弗里曼", "M"⟩⟩, ⟨8000/10000, ⟨"路人Q", "M"⟩⟩]

/-! ## Theorems for claims C4 and C7 -/

/-- Claim C4: with smart skip active (long-video mode), the computed smart-skip value is 1
for durations up to 30 minutes, 2 up to 90, 3 up to 180 and 5 above 180; at 24 fps the
durations 10, 45, 100 and 200 minutes give 1, 2, 3 and 5; and the sequential pipeline's
effective skip rate is `max(user_requested_skip, computed_skip)`. -/
theorem smart_skip_policy (fps : ℚ) (n : ℕ) :
    (((n : ℚ) / fps / 60 ≤ 30 → calculateSmartSkip true fps n = 1) ∧
      (30 < (n : ℚ) / fps / 60 ∧ (n : ℚ) / fps / 60 ≤ 90 → calculateSmartSkip true fps n = 2) ∧
      (90 < (n : ℚ) / fps / 60 ∧ (n : ℚ) / fps / 60 ≤ 180 → calculateSmartSkip true fps n = 3) ∧
      (180 < (n : ℚ) / fps / 60 → calculateSmartSkip true fps n = 5)) ∧
    (calculateSmartSkip true 24 14400 = 1 ∧ calculateSmartSkip true 24 64800 = 2 ∧
      calculateSmartSkip true 24 144000 = 3 ∧ calculateSmartSkip true 24 288000 = 5) ∧
    (∀ (lv : Bool) (k : ℕ),
      effectiveSkip lv k fps n = max k (calculateSmartSkip lv fps n)) := by
  refine ⟨⟨?_, ?_, ?_, ?_⟩, ⟨by decide, by decide, by decide, by decide⟩, fun lv k => rfl⟩
  · intro h
    simp only [calculateSmartSkip]
    simp [h]
  · rintro ⟨h1, h2⟩
    simp only [calculateSmartSkip]
    simp [h2, not_le.mpr h1]
  · rintro ⟨h1, h2⟩
    have h30 : ¬ ((n : ℚ) / fps / 60 ≤ 30) := not_le.mpr (lt_trans (by norm_num) h1)
    have h90 : ¬ ((n : ℚ) / fps / 60 ≤ 90) := not_le.mpr h1
    simp only [calculateSmartSkip]
    simp [h30, h90, h2]
  · intro h1
    have h30 : ¬ ((n : ℚ) / fps / 60 ≤ 30) := not_le.mpr (lt_trans (by norm_num) h1)
    have h90 : ¬ ((n : ℚ) / fps / 60 ≤ 90) := not_le.mpr (lt_trans (by norm_num) h1)
    have h180 : ¬ ((n : ℚ) / fps / 60 ≤ 180) := not_le.mpr h1
    simp only [calculateSmartSkip]
    simp [h30, h90, h180]

/-- Witness for `smart_skip_policy`: at 24 fps, a 14400-frame (10-minute) video has
duration at most 30 minutes and smart skip 1. -/
theorem smart_skip_policy_witness :
    calculateSmartSkip true 24 14400 = 1 :=
  (smart_skip_policy 24 14400).1.1 (by norm_num)

/-- Claim C7: `_load_checkpoint` honors a stored checkpoint exactly when its stored
movie title and similarity threshold both equal the current configuration; a checkpoint
saved for `(movie="A", threshold=0.6)` is rejected when resuming with threshold 0.7 or
with movie "B" (start frame 0 in both cases) and accepted with the identical
configuration. -/
theorem load_checkpoint_fingerprint :
    (∀ (movie : Option String) (t : ℚ), loadCheckpoint none movie t = none) ∧
    (∀ (c : Checkpoint) (movie : Option String) (t : ℚ),
      (loadCheckpoint (some c) movie t).isSome = true ↔
        (c.movie_title = movie ∧ c.similarity_threshold = t)) ∧
    (loadCheckpoint (some ⟨some "A", 6/10, 500⟩) (some "A") (7/10) = none ∧
      loadCheckpoint (some ⟨some "A", 6/10, 500⟩) (some "B") (6/10) = none ∧
      loadCheckpoint (some ⟨some "A", 6/10, 500⟩) (some "A") (6/10) =
        some ⟨some "A", 6/10, 500⟩ ∧
      resumeStartFrame true (some ⟨some "A", 6/10, 500⟩) (some "A") (7/10) = 0 ∧
      resumeStartFrame true (some ⟨some "A", 6/10, 500⟩) (some "B") (6/10) = 0 ∧
      resumeStartFrame true (some ⟨some "A", 6/10, 500⟩) (some "A") (6/10) = 500) := by
  refine ⟨fun movie t => rfl, fun c movie t => ?_, by decide⟩
  simp only [loadCheckpoint]
  split_ifs with h
  · simpa using h
  · simpa using h

/-- Witness for `load_checkpoint_fingerprint`: the matching configuration is honored. -/
theorem load_checkpoint_fingerprint_witness :
    (loadCheckpoint (some ⟨some "A", 6/10, 500⟩) (some "A") (6/10)).isSome = true :=
  (load_checkpoint_fingerprint.2.1 ⟨some "A", 6/10, 500⟩ (some "A") (6/10)).mpr ⟨rfl, rfl⟩

/-! ## Theorems for claims C1, C5, C6, C8, C10 -/

/-- Claim C1 (evaluation at the failing input): a 4-frame video processed by the
parallel pipeline with smart skip 2 is written to the output in frame order
1, 3, 2, 4 — not in the input order 1, 2, 3, 4 — because skipped frames are written
at read time while processed frames wait for the reorder buffer, which can only be
drained at a later processed frame or at shutdown. -/
theorem parallel_write_order_violation :
    parallelWriteOrderSlow 4 2 = [1, 3, 2, 4] ∧ parallelWriteOrderSlow 4 2 ≠ [1, 2, 3, 4] := by
  decide

/-- Claim C5 (counterexample): after a cancellation via `stop_processing`, the loop of
`process_video_file` exits normally and the checkpoint file is deleted — the claim
says it is preserved on cancellation. -/
theorem stop_deletes_checkpoint :
    SeqEvent.deleteCheckpoint ∈ seqExitEvents ExitCause.stopped true := by
  decide

/-- Claim C5 (amended): `process_video_file` deletes the checkpoint file on every
normal loop exit — natural completion and cancellation via `stop_processing` alike —
whenever a checkpoint was written during the run; only an exception preserves it. -/
theorem checkpoint_deletion_policy (cpExists : Bool) :
    (SeqEvent.deleteCheckpoint ∈ seqExitEvents ExitCause.completed cpExists ↔ cpExists = true) ∧
    (SeqEvent.deleteCheckpoint ∈ seqExitEvents ExitCause.stopped cpExists ↔ cpExists = true) ∧
    SeqEvent.deleteCheckpoint ∉ seqExitEvents ExitCause.errored cpExists := by
  cases cpExists <;> decide

/-- Witness for `checkpoint_deletion_policy`: with a checkpoint on disk, natural
completion deletes it. -/
theorem checkpoint_deletion_policy_witness :
    SeqEvent.deleteCheckpoint ∈ seqExitEvents ExitCause.completed true :=
  (checkpoint_deletion_policy true).1.mpr rfl

/-- Claim C6 (counterexample): when the bounded work queue is full, the producer
(at frame 2 with skip 1) neither queues the frame nor writes it to the output video —
the claim says the frame is written through unannotated. -/
theorem queue_full_drops_frame :
    2 ∉ (parallelFrameDispatch 2 1 true).1 ∧ 2 ∉ (parallelFrameDispatch 2 1 true).2 := by
  decide

/-- Claim C6 (amended): when the work queue is full, the producer waits briefly
(2-second put timeout) and then drops the current processed frame entirely: it is
neither queued for recognition nor written to the output video, so it is missing from
the output stream. -/
theorem queue_full_policy (k skip : ℕ) (h : k % skip = 0) :
    parallelFrameDispatch k skip true = ([], []) := by
  simp [parallelFrameDispatch, h]

/-- Witness for `queue_full_policy`: frame 2 with skip 1 and a full queue. -/
theorem queue_full_policy_witness : parallelFrameDispatch 2 1 true = ([], []) :=
  queue_full_policy 2 1 (by decide)

/-- Claim C8 (counterexample): on an error exit, `process_video_file` returns an error
record and does not finalize the statistics — the claim says stats are finalized at
every pipeline exit including errors. -/
theorem error_exit_skips_finalize :
    SeqEvent.finalizeStats ∉ seqExitEvents ExitCause.errored true ∧
      seqExitEvents ExitCause.errored true = [SeqEvent.returnError] := by
  decide

/-- Claim C8 (amended): `ProcessingStats` is finalized (sets converted to lists, total
elapsed time computed) on success and on interruption exits of `process_video_file`;
on an error exit the pipeline returns an error record instead and the stats are not
finalized. -/
theorem stats_finalization_policy (cpExists : Bool) :
    SeqEvent.finalizeStats ∈ seqExitEvents ExitCause.completed cpExists ∧
    SeqEvent.finalizeStats ∈ seqExitEvents ExitCause.stopped cpExists ∧
    SeqEvent.finalizeStats ∉ seqExitEvents ExitCause.errored cpExists := by
  cases cpExists <;> decide

/-- Claim C10: a run with `long_video_mode = False` never writes a checkpoint —
regardless of how many save opportunities the video's duration produces — and leaves
the checkpoint storage unchanged; and when no checkpoint is stored, the
`resume_from_checkpoint` flag has no effect on the start frame (always 0). -/
theorem no_checkpoint_without_long_mode :
    (∀ (saveTicks : List ℕ) (mkCp : ℕ → Checkpoint) (storage : Option Checkpoint)
      (cause : ExitCause),
      runCheckpointStorage false saveTicks mkCp storage cause = storage) ∧
    (∀ (movie : Option String) (t : ℚ) (r₁ r₂ : Bool),
      resumeStartFrame r₁ none movie t = 0 ∧
        resumeStartFrame r₁ none movie t = resumeStartFrame r₂ none movie t) := by
  constructor
  · intro saveTicks mkCp storage cause
    have hfold : ∀ (l : List ℕ) (init : Option Checkpoint × Bool),
        l.foldl (fun st (_ : ℕ) => st) init = init := by
      intro l
      induction l with
      | nil => intro init; rfl
      | cons a l ih => intro init; simp only [List.foldl_cons]; exact ih init
    simp only [runCheckpointStorage, Bool.false_eq_true, if_false]
    rw [hfold]
    cases cause <;> simp
  · intro movie t r₁ r₂
    cases r₁ <;> cases r₂ <;> simp [resumeStartFrame, loadCheckpoint]

/-! ## Helper lemmas for the scope resolver -/

theorem take_one_ne_nil {α : Type} {l : List α} : l.take 1 ≠ [] ↔ l ≠ [] := by
  cases l <;> simp

theorem filter_ne_nil_iff {α : Type} {p : α → Bool} {l : List α} :
    l.filter p ≠ [] ↔ ∃ r ∈ l, p r = true := by
  rw [Ne, List.filter_eq_nil_iff]
  push_neg
  simp

theorem length_orderedInsertRes (x : SearchResult) (l : List SearchResult) :
    (orderedInsertRes x l).length = l.length + 1 := by
  induction l with
  | nil => rfl
  | cons y ys ih =>
      simp only [orderedInsertRes]
      split_ifs <;> simp [ih]

theorem length_sortResults (l : List SearchResult) :
    (sortResults l).length = l.length := by
  induction l with
  | nil => rfl
  | cons x xs ih => simp [sortResults, length_orderedInsertRes, ih]

theorem updateAssoc_results_ne_nil {scores : List (String × GroupInfo)} {name : String}
    {r : SearchResult} (h : ∀ p ∈ scores, p.2.results ≠ []) :
    ∀ p ∈ updateAssoc scores name r, p.2.results ≠ [] := by
  induction scores with
  | nil =>
      intro p hp
      simp only [updateAssoc, List.mem_singleton] at hp
      subst hp
      simp
  | cons a rest ih =>
      obtain ⟨n, g⟩ := a
      intro p hp
      simp only [updateAssoc] at hp
      split_ifs at hp with hn
      · rcases List.mem_cons.mp hp with rfl | hp'
        · simp
        · exact h p (List.mem_cons_of_mem _ hp')
      · rcases List.mem_cons.mp hp with rfl | hp'
        · exact h _ (List.mem_cons_self _ _)
        · exact ih (fun q hq => h q (List.mem_cons_of_mem _ hq)) p hp'

theorem buildActorScores_results_ne_nil (same : List SearchResult) :
    ∀ p ∈ buildActorScores same, p.2.results ≠ [] := by
  have key : ∀ (l : List SearchResult) (acc : List (String × GroupInfo)),
      (∀ p ∈ acc, p.2.results ≠ []) →
      ∀ p ∈ l.foldl (fun sc r => updateAssoc sc r.metadata.actor_name r) acc,
        p.2.results ≠ [] := by
    intro l
    induction l with
    | nil =>
        intro acc hacc
        simpa using hacc
    | cons x xs ih =>
        intro acc hacc
        simp only [List.foldl_cons]
        exact ih _ (updateAssoc_results_ne_nil hacc)
  exact key same [] (by simp)

theorem findGroup_mem {scores : List (String × GroupInfo)} {a : String} {g : GroupInfo}
    (h : findGroup scores a = some g) : (a, g) ∈ scores := by
  induction scores with
  | nil => simp [findGroup] at h
  | cons p rest ih =>
      obtain ⟨n, gi⟩ := p
      simp only [findGroup] at h
      split_ifs at h with hn
      · subst hn
        injection h with h'
        subst h'
        exact List.mem_cons_self _ _
      · exact List.mem_cons_of_mem _ (ih h)

theorem tieBreakSelect_ne_nil {results : List SearchResult} (h : results ≠ []) :
    tieBreakSelect results ≠ [] := by
  have hsort : sortResults results ≠ [] := by
    intro hc
    apply h
    rw [← List.length_eq_zero, ← length_sortResults, hc]
    rfl
  simp only [tieBreakSelect]
  split
  · next heq => exact absurd heq hsort
  · next top rest heq =>
      split_ifs with hsame
      · split
        · next a hba =>
            split
            · next info hfg =>
                refine take_one_ne_nil.mpr ?_
                exact buildActorScores_results_ne_nil _ (a, info) (findGroup_mem hfg)
            · next hfg => exact hsort
        · next hba => exact hsort
      · exact hsort

theorem searchInMovieScope_ne_nil_iff (cfg : RecognizerCfg) (raw : List SearchResult) :
    searchInMovieScope cfg raw ≠ [] ↔
      ∃ r ∈ scopePool cfg raw, cfg.similarity_threshold ≤ r.similarity := by
  by_cases hb : movieTruthy cfg.movie_title = false ∨ cfg.hasRoster = false
  · simp only [searchInMovieScope, scopePool, if_pos hb, search_similar_faces]
    rw [filter_ne_nil_iff]
    simp only [decide_eq_true_eq]
  · simp only [searchInMovieScope, scopePool, if_neg hb, search_similar_faces]
    rw [take_one_ne_nil]
    have hres :
        ((raw.take 50).filter (fun r => decide ((3:ℚ)/10 ≤ r.similarity))).filter
            (fun r =>
              (pyLower r.metadata.movie_title == pyLower (cfg.movie_title.getD "")) &&
                decide (cfg.similarity_threshold ≤ r.similarity)) ≠ [] ↔
          ∃ r ∈ ((raw.take 50).filter (fun r => decide ((3:ℚ)/10 ≤ r.similarity))).filter
              (fun r => pyLower r.metadata.movie_title == pyLower (cfg.movie_title.getD "")),
            cfg.similarity_threshold ≤ r.similarity := by
      rw [filter_ne_nil_iff]
      constructor
      · rintro ⟨r, hrA, hcond⟩
        rw [Bool.and_eq_true, decide_eq_true_eq] at hcond
        exact ⟨r, List.mem_filter.mpr ⟨hrA, hcond.1⟩, hcond.2⟩
      · rintro ⟨r, hrpool, ht⟩
        obtain ⟨hrA, hmov⟩ := List.mem_filter.mp hrpool
        refine ⟨r, hrA, ?_⟩
        rw [Bool.and_eq_true, decide_eq_true_eq]
        exact ⟨hmov, ht⟩
    split_ifs with hlen
    · constructor
      · intro _
        refine hres.mp fun hc => ?_
        rw [hc] at hlen
        simp at hlen
      · intro hr
        exact tieBreakSelect_ne_nil (hres.mpr hr)
    · exact hres

theorem recognizeFace_recognized_iff (cfg : RecognizerCfg) (raw : List SearchResult) :
    (recognizeFace cfg raw).recognized = true ↔ searchInMovieScope cfg raw ≠ [] := by
  cases h : searchInMovieScope cfg raw with
  | nil => simp [recognizeFace, h]
  | cons b bs => simp [recognizeFace, h]

theorem bestActorFold_le (l : List (String × GroupInfo)) (acc : Option String × ℚ) :
    acc.2 ≤ (bestActorFold l acc).2 ∧
      ∀ p ∈ l, groupScore p.2 ≤ (bestActorFold l acc).2 := by
  induction l generalizing acc with
  | nil => exact ⟨le_refl _, by simp⟩
  | cons a rest ih =>
      obtain ⟨n, g⟩ := a
      by_cases h : acc.2 < groupScore g
      · have h2 := ih (some n, groupScore g)
        constructor
        · refine le_trans (le_of_lt h) ?_
          simpa [bestActorFold, h] using h2.1
        · intro p hp
          rcases List.mem_cons.mp hp with rfl | hp'
          · simpa [bestActorFold, h] using h2.1
          · simpa [bestActorFold, h] using h2.2 p hp'
      · have h2 := ih acc
        constructor
        · simpa [bestActorFold, h] using h2.1
        · intro p hp
          rcases List.mem_cons.mp hp with rfl | hp'
          · have hle : groupScore (n, g).2 ≤ acc.2 := not_lt.mp h
            simpa [bestActorFold, h] using le_trans hle h2.1
          · simpa [bestActorFold, h] using h2.2 p hp'

/-! ## Theorems for claims C2 and C3 -/

/-- Claim C2: a face is `recognized` exactly when some candidate in the active search
scope reaches the configured similarity threshold (equality included, so the
at-threshold boundary gives `recognized=true` and strictly below gives
`recognized=false`); the reported confidence always equals the tier of the reported
similarity, and the tiers are `high` iff `0.85 ≤ s`, `medium` iff `0.7 ≤ s < 0.85`,
`low` iff `s < 0.7`. -/
theorem recognized_iff_threshold :
    (∀ (cfg : RecognizerCfg) (raw : List SearchResult),
      ((recognizeFace cfg raw).recognized = true ↔
        ∃ r ∈ scopePool cfg raw, cfg.similarity_threshold ≤ r.similarity)) ∧
    (∀ (cfg : RecognizerCfg) (raw : List SearchResult),
      (recognizeFace cfg raw).confidence =
        getConfidenceLevel (recognizeFace cfg raw).similarity) ∧
    (∀ s : ℚ,
      (getConfidenceLevel s = "high" ↔ 85/100 ≤ s) ∧
      (getConfidenceLevel s = "medium" ↔ 7/10 ≤ s ∧ s < 85/100) ∧
      (getConfidenceLevel s = "low" ↔ s < 7/10)) := by
  refine ⟨fun cfg raw => ?_, fun cfg raw => ?_, fun s => ?_⟩
  · rw [recognizeFace_recognized_iff]
    exact searchInMovieScope_ne_nil_iff cfg raw
  · cases h : searchInMovieScope cfg raw with
    | nil =>
        simp only [recognizeFace, h]
        show "low" = getConfidenceLevel 0
        unfold getConfidenceLevel
        norm_num
    | cons b bs => simp [recognizeFace, h]
  · unfold getConfidenceLevel
    split_ifs with h1 h2
    · exact ⟨⟨fun _ => h1, fun _ => rfl⟩,
        ⟨fun hc => absurd hc (by decide), fun hx => absurd h1 (not_le.mpr hx.2)⟩,
        ⟨fun hc => absurd hc (by decide),
          fun hx => absurd h1 (not_le.mpr (hx.trans_le (by norm_num)))⟩⟩
    · exact ⟨⟨fun hc => absurd hc (by decide), fun hc => absurd hc h1⟩,
        ⟨fun _ => ⟨h2, not_le.mp h1⟩, fun _ => rfl⟩,
        ⟨fun hc => absurd hc (by decide), fun hx => absurd h2 (not_le.mpr hx)⟩⟩
    · exact ⟨⟨fun hc => absurd hc (by decide),
          fun hc => absurd (le_trans (by norm_num : (7:ℚ)/10 ≤ 85/100) hc) h2⟩,
        ⟨fun hc => absurd hc (by decide), fun hx => absurd hx.1 h2⟩,
        ⟨fun _ => not_le.mp h2, fun _ => rfl⟩⟩

/-- Witness for `recognized_iff_threshold`: an unscoped search whose single candidate
sits exactly at the threshold 0.6 is recognized. -/
theorem recognized_iff_threshold_witness :
    (recognizeFace ⟨6/10, none, false⟩ [⟨6/10, ⟨"A", "M"⟩⟩]).recognized = true :=
  (recognized_iff_threshold.1 ⟨6/10, none, false⟩ [⟨6/10, ⟨"A", "M"⟩⟩]).mpr
    ⟨⟨6/10, ⟨"A", "M"⟩⟩, by decide, by decide⟩

/-- Claim C3: movie-scoped resolution returns at most one match per face; on the
tie-break scenario (main-list actor at 0.8001 with three reference faces against an
unlisted actor at 0.8000 with one face, both within the 0.001 window) it
deterministically returns the main-list actor's representative result; and the
`best_actor` selection always attains the maximal aggregate group score. -/
theorem movie_scope_tie_break :
    (∀ (cfg : RecognizerCfg) (raw : List SearchResult),
      (searchInMovieScope cfg raw).length ≤ 1) ∧
    searchInMovieScope ⟨6/10, some "M", true⟩ tieExampleRaw =
      [⟨8001/10000, ⟨"摩根·弗里曼", "M"⟩⟩] ∧
    (∀ (same : List SearchResult), ∀ p ∈ buildActorScores same,
      groupScore p.2 ≤ (bestActorFold (buildActorScores same) (none, -1)).2) := by
  refine ⟨fun cfg raw => ?_, by decide, fun same p hp => (bestActorFold_le _ _).2 p hp⟩
  unfold searchInMovieScope
  split_ifs with hb
  · exact le_trans (List.length_filter_le _ _) (List.length_take_le 1 raw)
  · exact List.length_take_le 1 _

/-- Witness for `movie_scope_tie_break`: the main-list actor's group in the tie-break
scenario scores at most the selected best score. -/
theorem movie_scope_tie_break_witness :
    groupScore ⟨3, 24003/10000, true,
        [⟨8001/10000, ⟨"摩根·弗里曼", "M"⟩⟩, ⟨8001/10000, ⟨"摩根·弗里曼", "M"⟩⟩,
         ⟨8001/10000, ⟨"摩根·弗里曼", "M"⟩⟩]⟩ ≤
      (bestActorFold (buildActorScores tieExampleRaw) (none, -1)).2 :=
  movie_scope_tie_break.2.2 tieExampleRaw
    ("摩根·弗里曼", ⟨3, 24003/10000, true,
      [⟨8001/10000, ⟨"摩根·弗里曼", "M"⟩⟩, ⟨8001/10000, ⟨"摩根·弗里曼", "M"⟩⟩,
       ⟨8001/10000, ⟨"摩根·弗里曼", "M"⟩⟩]⟩) (by decide)

/-! ## Helper lemmas and theorem for claim C9 -/

theorem annotateOne_shape (h : Heap) (aId nxt : ℕ) (r : FaceResult) :
    ∃ v w, annotateOne (h, aId, nxt) r = (hset (hset h aId v) nxt w, nxt, nxt + 1) := by
  unfold annotateOne drawFaceShapeH drawTextWithOutlineH
  split_ifs <;> exact ⟨_, _, rfl⟩

theorem annotFold_preserves (results : List FaceResult) :
    ∀ (h : Heap) (aId nxt frameId : ℕ), frameId < aId → frameId < nxt →
      (results.foldl annotateOne (h, aId, nxt)).1 frameId = h frameId := by
  induction results with
  | nil =>
      intro h aId nxt frameId _ _
      rfl
  | cons r rs ih =>
      intro h aId nxt frameId h1 h2
      obtain ⟨v, w, he⟩ := annotateOne_shape h aId nxt r
      simp only [List.foldl_cons, he]
      rw [ih _ nxt (nxt + 1) frameId h2 (Nat.lt_succ_of_lt h2)]
      simp [hset, Nat.ne_of_lt h1, Nat.ne_of_lt h2]

theorem annotFold_congr (results : List FaceResult) :
    ∀ (h1 h2 : Heap) (aId nxt : ℕ), h1 aId = h2 aId →
      (results.foldl annotateOne (h1, aId, nxt)).2 =
          (results.foldl annotateOne (h2, aId, nxt)).2 ∧
        (results.foldl annotateOne (h1, aId, nxt)).1
            ((results.foldl annotateOne (h1, aId, nxt)).2.1) =
          (results.foldl annotateOne (h2, aId, nxt)).1
            ((results.foldl annotateOne (h2, aId, nxt)).2.1) := by
  induction results with
  | nil =>
      intro h1 h2 aId nxt hh
      exact ⟨rfl, hh⟩
  | cons r rs ih =>
      intro h1 h2 aId nxt hh
      simp only [List.foldl_cons]
      cases hr : r.recognized with
      | true =>
          simp only [annotateOne, drawFaceShapeH, drawTextWithOutlineH, hr, if_true]
          refine ih _ _ nxt (nxt + 1) ?_
          simp [hset, hh]
      | false =>
          simp only [annotateOne, drawFaceShapeH, drawTextWithOutlineH, hr,
            Bool.false_eq_true, if_false]
          refine ih _ _ nxt (nxt + 1) ?_
          simp [hset, hh]

/-- Claim C9: `draw_face_annotations` never writes the source frame buffer — after any
annotation run the source buffer's content is unchanged — and its output is a function
of the source frame's content and the recognition results alone, so two calls on the
same frame with the same fixed result list produce identical output frames. -/
theorem annotate_pure_and_deterministic :
    (∀ (h : Heap) (frameId nextId : ℕ) (results : List FaceResult),
      frameId < nextId →
        (drawFaceAnnotM h frameId nextId results).1 frameId = h frameId) ∧
    (∀ (h1 h2 : Heap) (frameId nextId : ℕ) (results : List FaceResult),
      h1 frameId = h2 frameId →
        annotOutput h1 frameId nextId results = annotOutput h2 frameId nextId results) := by
  constructor
  · intro h frameId nextId results hlt
    unfold drawFaceAnnotM
    rw [annotFold_preserves results _ nextId (nextId + 1) frameId hlt (Nat.lt_succ_of_lt hlt)]
    simp [hset, Nat.ne_of_lt hlt]
  · intro h1 h2 frameId nextId results hh
    unfold annotOutput drawFaceAnnotM
    refine (annotFold_congr results _ _ nextId (nextId + 1) ?_).2
    simp [hset, hh]

/-- Witness for `annotate_pure_and_deterministic`: a one-face annotation on buffer 0
leaves buffer 0 untouched, and two heaps agreeing on the source produce the same
annotated output. -/
theorem annotate_pure_witness :
    (drawFaceAnnotM (fun _ => FrameTerm.source 0) 0 1 [sampleFace]).1 0 =
        FrameTerm.source 0 ∧
      annotOutput (fun _ => FrameTerm.source 0) 0 1 [sampleFace] =
        annotOutput (fun i => if i = 0 then FrameTerm.source 0 else FrameTerm.source 7)
          0 1 [sampleFace] :=
  ⟨annotate_pure_and_deterministic.1 (fun _ => FrameTerm.source 0) 0 1 [sampleFace]
      (by decide),
    annotate_pure_and_deterministic.2 (fun _ => FrameTerm.source 0)
      (fun i => if i = 0 then FrameTerm.source 0 else FrameTerm.source 7) 0 1 [sampleFace]
      (by decide)⟩

end ActorDS
